import Mathlib

/-!
Verification of the BFD daemon core (`bfd.c`, `bfd_config.c`) against its
natural-language specification.  The definitions below are a shallow
embedding of the C source: every pure computation becomes a Lean function
and every stateful routine becomes an explicit state-passing function on a
session/registry value.  Machine integers are modelled as `Nat` with an
explicit `% 2^w` where C overflow semantics matter.  Side effects that
leave the core (packet transmission, observer notification) are collected
in an event list.
-/

namespace Bfd

/-! ## Basic wire/address model -/

/-- Address families, numeric values as on Linux (`AF_INET`, `AF_INET6`). -/
def AF_INET : Nat := 2

def AF_INET6 : Nat := 10

/-- Model of `struct sockaddr_any`: family plus address bits plus UDP port.
`addr` stands for the whole address payload (IPv4 or IPv6 bits); the
`sin_port`/`sin6_port` fields share one offset, so a single `port` field is
faithful to the `memcmp`-based comparisons in the source. -/
structure SockAddr where
  family : Nat
  addr : Nat
  port : Nat
  deriving DecidableEq

/-- Port zeroing done before key comparisons (`switch` on the family in
`bfd_find_disc` / `bfd_find_shop`): only `AF_INET` and `AF_INET6` clear the
port, any other family leaves the value untouched. -/
def sa_strip_port (sa : SockAddr) : SockAddr :=
  if sa.family = AF_INET ∨ sa.family = AF_INET6 then { sa with port := 0 } else sa

/-! ## Session state and record -/

/-- `PTM_BFD_ADM_DOWN`, `PTM_BFD_DOWN`, `PTM_BFD_INIT`, `PTM_BFD_UP`. -/
inductive SesState where
  | AdmDown
  | Down
  | Init
  | Up
  deriving DecidableEq

/-- Diagnostic codes.  `bfd.h` is not part of `src/`; the numeric values
follow RFC 5880 §4.1, and only their identity matters for the claims. -/
def BFD_DIAGDETECTTIME : Nat := 1

def BFD_DIAGNEIGHDOWN : Nat := 3

def BFD_DIAGADMINDOWN : Nat := 7

/-- Modelled from the spec: default timer constants from the missing
`bfd.h` header.  The spec fixes the slow-start transmit interval at 1 s
(§3 Lifecycle, §4.E Create) and the default detect multiplier at 3 (§3). -/
def BFD_DEF_SLOWTX : Nat := 1000000

/-- Modelled from the spec: default detect multiplier (§3, "default 3"). -/
def BFD_DEFDETECTMULT : Nat := 3

/-- Modelled from the spec: default desired-min-tx (scenario S1 uses 300000 µs). -/
def BFD_DEFDESIREDMINTX : Nat := 300000

/-- Modelled from the spec: default required-min-rx (scenario S1 uses 300000 µs). -/
def BFD_DEFREQUIREDMINRX : Nat := 300000

/-- Modelled from the spec: default required-min-echo value. -/
def BFD_DEF_REQ_MIN_ECHO : Nat := 50000

/-- Modelled from the spec: §4.E, "Every `PKTS_TO_CONSIDER_FOR_PKT_LOSS`
(e.g. 100) packets". -/
def PKTS_TO_CONSIDER_FOR_PKT_LOSS : Nat := 100

/-- The `timers`/`new_timers`/`remote_timers` aggregate of the session. -/
structure BfdTimers where
  desired_min_tx : Nat
  required_min_rx : Nat
  required_min_echo : Nat
  deriving DecidableEq

/-- The `discrs` aggregate: local and remote discriminator. -/
structure BfdDiscrs where
  my_discr : Nat
  remote_discr : Nat
  deriving DecidableEq

/-- Session flag bits (`BFD_SESS_FLAG_*`), one Bool per bit. -/
structure BfdFlags where
  echo : Bool
  echo_active : Bool
  shutdown : Bool
  mh : Bool
  ipv6 : Bool
  vxlan : Bool
  track_sla : Bool
  deriving DecidableEq

/-- SLA accumulators (`bfd->sla`).  The accumulator widths live in the
missing header; values exercised by the claims are small, and the float
`pkt_loss` percentage is outside the embedding (floating point). -/
structure BfdSla where
  lattency : Nat
  jitter : Nat
  old_lat : Nat
  pkts_lost : Nat
  deriving DecidableEq

/-- Packet counters (`bfd->stats`). -/
structure BfdStats where
  rx_ctrl_pkt : Nat
  rx_echo_pkt : Nat
  tx_ctrl_pkt : Nat
  tx_echo_pkt : Nat
  deriving DecidableEq

/-- Single-hop key: peer address plus local interface name. -/
structure ShopKey where
  peer : SockAddr
  port_name : String
  deriving DecidableEq

/-- Multi-hop key: peer address, local address, VRF name. -/
structure MhopKey where
  peer : SockAddr
  local_addr : SockAddr
  vrf_name : String
  deriving DecidableEq

/-- The BFD session (`bfd_session`).  Timer arming state models the timer
engine layer (`bfd_event.c`, not under `src/`): an armed flag plus the
interval the timer was last armed with.  `xmit_ms` models `xmit_tv` in
milliseconds (the resolution the SLA code uses). -/
structure BfdSession where
  discrs : BfdDiscrs
  ses_state : SesState
  local_diag : Nat
  polling : Nat
  demand_mode : Nat
  detect_mult : Nat
  remote_detect_mult : Nat
  up_min_tx : Nat
  timers : BfdTimers
  new_timers : BfdTimers
  xmt_TO : Nat
  detect_TO : Nat
  echo_xmt_TO : Nat
  echo_detect_TO : Nat
  flags : BfdFlags
  shop : ShopKey
  mhop : MhopKey
  local_ip : SockAddr
  pl : Option String
  sla : BfdSla
  stats : BfdStats
  refcount : Nat
  sock : Nat
  xmit_ms : Nat
  xmttimer_armed : Bool
  xmttimer_interval : Nat
  echo_xmttimer_armed : Bool
  echo_xmttimer_interval : Nat
  recvtimer_armed : Bool
  echo_recvtimer_armed : Bool
  deriving DecidableEq

/-- Effects that leave the core: control-packet transmission
(`ptm_bfd_snd`, with the final bit), echo transmission (`ptm_bfd_echo_snd`),
observer notifications (`control_notify`, `control_notify_config`,
`control_notify_sla`). -/
inductive Event where
  | ev_snd (fbit : Nat)
  | ev_echo_snd
  | ev_notify
  | ev_notify_config (op : Nat)
  | ev_notify_sla (latency jitter : Nat)
  deriving DecidableEq

/-- `BCM_NOTIFY_CONFIG_ADD` (op codes modelled as naturals). -/
def CONFIG_ADD : Nat := 0

/-- `BCM_NOTIFY_CONFIG_UPDATE`. -/
def CONFIG_UPDATE : Nat := 1

/-- `BCM_NOTIFY_CONFIG_DELETE`. -/
def CONFIG_DELETE : Nat := 2

/-! ## Timer engine layer -/

/-- Modelled from the spec: the timer engine (§4.C, `bfd_event.c` not under
`src/`).  Arming a timer sets its armed flag (recording the interval where
the call passes one); cancellation clears the flag and is idempotent. -/
def bfd_xmttimer_update (bs : BfdSession) (interval : Nat) : BfdSession :=
  { bs with xmttimer_armed := true, xmttimer_interval := interval }

/-- Modelled from the spec: cancel the control transmit timer. -/
def bfd_xmttimer_delete (bs : BfdSession) : BfdSession :=
  { bs with xmttimer_armed := false }

/-- Modelled from the spec: arm the echo transmit timer. -/
def bfd_echo_xmttimer_update (bs : BfdSession) (interval : Nat) : BfdSession :=
  { bs with echo_xmttimer_armed := true, echo_xmttimer_interval := interval }

/-- Modelled from the spec: cancel the echo transmit timer. -/
def bfd_echo_xmttimer_delete (bs : BfdSession) : BfdSession :=
  { bs with echo_xmttimer_armed := false }

/-- Modelled from the spec: arm the control detect (receive) timer. -/
def bfd_recvtimer_update (bs : BfdSession) : BfdSession :=
  { bs with recvtimer_armed := true }

/-- Modelled from the spec: cancel the control detect timer. -/
def bfd_recvtimer_delete (bs : BfdSession) : BfdSession :=
  { bs with recvtimer_armed := false }

/-- Modelled from the spec: arm the echo detect timer. -/
def bfd_echo_recvtimer_update (bs : BfdSession) : BfdSession :=
  { bs with echo_recvtimer_armed := true }

/-- Modelled from the spec: cancel the echo detect timer. -/
def bfd_echo_recvtimer_delete (bs : BfdSession) : BfdSession :=
  { bs with echo_recvtimer_armed := false }

/-! ## Discriminator allocator (`ptm_bfd_gen_ID`) -/

/-- Initial value of the static counter `sessionID` in `ptm_bfd_gen_ID`. -/
def sessionID_init : Nat := 1

/-- `ptm_bfd_gen_ID`: `return sessionID++` on a `uint32_t` static.  Input is
the current counter value, output is the returned value together with the
new counter value (post-increment wraps modulo 2^32). -/
def ptm_bfd_gen_ID (sessionID : Nat) : Nat × Nat :=
  (sessionID, (sessionID + 1) % 2 ^ 32)

/-- Counter value after `n` calls to `ptm_bfd_gen_ID`, starting from the
initial state. -/
def genID_state : Nat → Nat
  | 0 => sessionID_init
  | n + 1 => (ptm_bfd_gen_ID (genID_state n)).2

/-- Value returned by the `n`-th call (`n ≥ 1`) of `ptm_bfd_gen_ID`. -/
def genID_nth (n : Nat) : Nat := (ptm_bfd_gen_ID (genID_state (n - 1))).1

/-! ## Registry (uthash tables) -/

/-- The three process-wide hash tables.  uthash keeps one intrusive object
in several tables; here each index carries the session value, and an
in-place pointer mutation becomes a value replacement in every index.
`HASH_ADD` prepends (new entries win `HASH_FIND` among duplicate keys,
as in uthash's bucket chaining). -/
structure Registry where
  session_hash : List BfdSession
  peer_hash : List BfdSession
  local_peer_hash : List BfdSession
  deriving DecidableEq

/-- The empty registry. -/
def Registry.empty : Registry := ⟨[], [], []⟩

/-- `bs_session_find` / the `HASH_FIND(sh, …)` lookup by discriminator. -/
def bs_session_find (reg : Registry) (discr : Nat) : Option BfdSession :=
  reg.session_hash.find? (fun b => decide (b.discrs.my_discr = discr))

/-- `bfd_find_disc`: look the session up by local discriminator, zero the
port in the caller's address, then the (dead) address check: the session is
dropped only when `my_discr ≠ ldisc` *and* the address equals the stored
peer — but `HASH_FIND` only returns exact key matches, so the first
conjunct is always false and the session is returned regardless of the
address. -/
def bfd_find_disc (reg : Registry) (sa : SockAddr) (ldisc : Nat) :
    Option BfdSession :=
  match bs_session_find reg ldisc with
  | none => none
  | some bs =>
    let sa1 := sa_strip_port sa
    if bs.discrs.my_discr ≠ ldisc ∧ sa1 = bs.shop.peer then none else some bs

/-- `bfd_find_shop`: zero the port in the key, search the single-hop index;
if nothing matches, retry with an empty interface name (the local interface
is optional in the key). -/
def bfd_find_shop (reg : Registry) (k : ShopKey) : Option BfdSession :=
  let k1 : ShopKey := { k with peer := sa_strip_port k.peer }
  match reg.peer_hash.find? (fun b => decide (b.shop = k1)) with
  | some bs => some bs
  | none =>
    reg.peer_hash.find? (fun b => decide (b.shop = { k1 with port_name := "" }))

/-- `bfd_find_mhop`: zero the ports in both addresses of the key (the
source's `switch` zeroes them for the `AF_INET` and `AF_INET6` families),
then search the multi-hop index. -/
def bfd_find_mhop (reg : Registry) (k : MhopKey) : Option BfdSession :=
  let k1 : MhopKey :=
    if k.peer.family = AF_INET ∨ k.peer.family = AF_INET6 then
      { k with peer := { k.peer with port := 0 },
               local_addr := { k.local_addr with port := 0 } }
    else k
  reg.local_peer_hash.find? (fun b => decide (b.mhop = k1))

/-- Received control packet header fields used by session lookup
(`bfd_pkt_t`): my/your discriminator and the state bits.  Byte order is
outside the embedding; values are host order. -/
structure BfdPkt where
  my_discr : Nat
  remote_discr : Nat
  state : SesState
  deriving DecidableEq

/-- `ptm_bfd_sess_find`: RFC 5880 §6.8.6 demultiplexing.  Non-zero
your-discriminator resolves through `bfd_find_disc`; a zero one with packet
state Down/AdminDown resolves by the address tuple; otherwise, or when the
lookups fail, no session.  The `cp == NULL` branch searches the indices
directly (no port zeroing).  `get_vrf` stands for `ptm_bfd_get_vrf_name`
(interface/VRF tables are external collaborators). -/
def ptm_bfd_sess_find (reg : Registry) (get_vrf : String → Option String)
    (cp : Option BfdPkt) (port_name : String) (peer loc : SockAddr)
    (vrf_name : String) (is_mhop : Bool) : Option BfdSession :=
  match cp with
  | some p =>
    if p.remote_discr ≠ 0 then
      bfd_find_disc reg peer p.remote_discr
    else if p.state = SesState.Down ∨ p.state = SesState.AdmDown then
      if is_mhop then
        let vrf := if vrf_name ≠ "" then vrf_name else (get_vrf port_name).getD ""
        bfd_find_mhop reg { peer := peer, local_addr := loc, vrf_name := vrf }
      else
        bfd_find_shop reg { peer := peer, port_name := port_name }
    else none
  | none =>
    if peer.addr ≠ 0 then
      if is_mhop then
        reg.local_peer_hash.find? (fun b =>
          decide (b.mhop = { peer := peer, local_addr := loc,
                             vrf_name := if vrf_name ≠ "" then vrf_name else "" }))
      else
        reg.peer_hash.find? (fun b =>
          decide (b.shop = { peer := peer, port_name := port_name }))
    else none

/-! ## Transmit path and jitter -/

/-- `ptm_bfd_start_xmt_timer`: choose the nominal interval (echo or
control), jitter it by `(75 + random() % maxpercent) / 100` where
`maxpercent` is 16 for a detect multiplier of 1 and 26 otherwise, and arm
the corresponding transmit timer.  `r` is the `random()` draw; the 64-bit
multiplication wraps modulo 2^64 as in C. -/
def ptm_bfd_start_xmt_timer (bfd : BfdSession) (is_echo : Bool) (r : Nat) :
    BfdSession :=
  let xmt_TO := if is_echo then bfd.echo_xmt_TO else bfd.xmt_TO
  let maxpercent := if bfd.detect_mult = 1 then 16 else 26
  let jitter := ((xmt_TO * (75 + r % maxpercent)) % 2 ^ 64) / 100
  if is_echo then bfd_echo_xmttimer_update bfd jitter
  else bfd_xmttimer_update bfd jitter

/-- Observer: the nominal interval `ptm_bfd_start_xmt_timer` jitters
(echo or control transmit period). -/
def nominal_xmt_interval (bfd : BfdSession) (is_echo : Bool) : Nat :=
  if is_echo then bfd.echo_xmt_TO else bfd.xmt_TO

/-- Observer: the interval the corresponding transmit timer is armed with
after `ptm_bfd_start_xmt_timer`. -/
def armed_xmt_interval (bfd : BfdSession) (is_echo : Bool) (r : Nat) : Nat :=
  if is_echo then (ptm_bfd_start_xmt_timer bfd is_echo r).echo_xmttimer_interval
  else (ptm_bfd_start_xmt_timer bfd is_echo r).xmttimer_interval

/-- `ptm_bfd_echo_xmt_TO`: send the scheduled echo packet, stamp
`xmit_tv`, and restart the echo transmit timer.  `now` is the
`gettimeofday` reading in milliseconds. -/
def ptm_bfd_echo_xmt_TO (bfd : BfdSession) (r now : Nat) :
    BfdSession × List Event :=
  let b1 := { bfd with xmit_ms := now }
  (ptm_bfd_start_xmt_timer b1 true r, [Event.ev_echo_snd])

/-- `ptm_bfd_xmt_TO`: send the scheduled control packet, stamp `xmit_tv`,
and restart the control transmit timer. -/
def ptm_bfd_xmt_TO (bfd : BfdSession) (fbit : Nat) (r now : Nat) :
    BfdSession × List Event :=
  let b1 := { bfd with xmit_ms := now }
  (ptm_bfd_start_xmt_timer b1 false r, [Event.ev_snd fbit])

/-! ## Echo start/stop -/

/-- `ptm_bfd_echo_stop`: clear the echo intervals and the ECHO_ACTIVE
flag, cancel both echo timers; when `polling ≠ 0`, start a poll sequence
(stage the new timers and transmit a control packet). -/
def ptm_bfd_echo_stop (bfd : BfdSession) (polling : Nat) :
    BfdSession × List Event :=
  let b1 := { bfd with echo_xmt_TO := 0, echo_detect_TO := 0,
                       flags := { bfd.flags with echo_active := false } }
  let b2 := bfd_echo_recvtimer_delete (bfd_echo_xmttimer_delete b1)
  if polling ≠ 0 then
    let b3 := { b2 with
      polling := polling,
      new_timers := { b2.new_timers with
        desired_min_tx := b2.up_min_tx,
        required_min_rx := b2.timers.required_min_rx } }
    (b3, [Event.ev_snd 0])
  else (b2, [])

/-- `ptm_bfd_echo_start`: compute the echo detect timeout, transmit the
first echo packet and arm the echo transmit timer, then start a poll
sequence (stage the new timers, transmit a control packet). -/
def ptm_bfd_echo_start (bfd : BfdSession) (r now : Nat) :
    BfdSession × List Event :=
  let b1 := { bfd with
    echo_detect_TO := bfd.remote_detect_mult * bfd.echo_xmt_TO }
  let p2 := ptm_bfd_echo_xmt_TO b1 r now
  let b3 := { p2.1 with
    polling := 1,
    new_timers := { p2.1.new_timers with
      desired_min_tx := p2.1.up_min_tx,
      required_min_rx := p2.1.timers.required_min_rx } }
  (b3, p2.2 ++ [Event.ev_snd 0])

/-! ## State transitions -/

/-- `ptm_bfd_ses_up`: clear the diagnostic, enter Up, begin polling; if the
peer accepts echo (`echo_xmt_TO ≠ 0`) and the session is single-hop, start
the echo function, otherwise stage the operational timers and transmit;
finally notify observers. -/
def ptm_bfd_ses_up (bfd : BfdSession) (r now : Nat) :
    BfdSession × List Event :=
  let b1 := { bfd with local_diag := 0, ses_state := SesState.Up, polling := 1 }
  let p2 :=
    if b1.echo_xmt_TO ≠ 0 ∧ b1.flags.mh = false then
      ptm_bfd_echo_start b1 r now
    else
      let b := { b1 with
        new_timers := { b1.new_timers with
          desired_min_tx := b1.up_min_tx,
          required_min_rx := b1.timers.required_min_rx } }
      (b, [Event.ev_snd 0])
  (p2.1, p2.2 ++ [Event.ev_notify])

/-- `ptm_bfd_ses_dn`: record the diagnostic, zero the remote
discriminator, enter Down, clear polling and demand mode, transmit a
control packet; observers are notified only when the previous state was
Up; echo transmission is stopped if it was active. -/
def ptm_bfd_ses_dn (bfd : BfdSession) (diag : Nat) :
    BfdSession × List Event :=
  let old_state := bfd.ses_state
  let b1 := { bfd with
    local_diag := diag,
    discrs := { bfd.discrs with remote_discr := 0 },
    ses_state := SesState.Down,
    polling := 0,
    demand_mode := 0 }
  let evs := [Event.ev_snd 0] ++
    (if old_state = SesState.Up then [Event.ev_notify] else [])
  let p2 := if b1.flags.echo_active then ptm_bfd_echo_stop b1 0 else (b1, [])
  (p2.1, evs ++ p2.2)

/-- `bfd_recvtimer_cb` (detection timeout): in Init or Up drive the
session Down with diagnostic DetectTime and re-arm the receive timer; in
any other state zero the remote discriminator (second detect-time
expiration, RFC 5880 §6.5.1). -/
def bfd_recvtimer_cb (bs : BfdSession) : BfdSession × List Event :=
  if bs.ses_state = SesState.Init ∨ bs.ses_state = SesState.Up then
    let p := ptm_bfd_ses_dn bs BFD_DIAGDETECTTIME
    (bfd_recvtimer_update p.1, p.2)
  else
    ({ bs with discrs := { bs.discrs with remote_discr := 0 } }, [])

/-- `bfd_echo_recvtimer_cb` (echo detection timeout): in Init or Up drive
the session Down with diagnostic DetectTime. -/
def bfd_echo_recvtimer_cb (bs : BfdSession) : BfdSession × List Event :=
  if bs.ses_state = SesState.Init ∨ bs.ses_state = SesState.Up then
    ptm_bfd_ses_dn bs BFD_DIAGDETECTTIME
  else (bs, [])

/-! ## Peer configuration and session update -/

/-- `struct bfd_peer_cfg` as filled in by the configuration parser
(`bfd_config.c`); zeroed defaults as after its `memset`. -/
structure BfdPeerCfg where
  bpc_mhop : Bool := false
  bpc_ipv4 : Bool := true
  bpc_peer : SockAddr := ⟨0, 0, 0⟩
  bpc_local : SockAddr := ⟨0, 0, 0⟩
  bpc_has_localif : Bool := false
  bpc_localif : String := ""
  bpc_has_vxlan : Bool := false
  bpc_has_vrfname : Bool := false
  bpc_vrfname : String := ""
  bpc_has_discr : Bool := false
  bpc_discr : Nat := 0
  bpc_has_detectmultiplier : Bool := false
  bpc_detectmultiplier : Nat := 0
  bpc_has_recvinterval : Bool := false
  bpc_recvinterval : Nat := 0
  bpc_has_txinterval : Bool := false
  bpc_txinterval : Nat := 0
  bpc_has_echointerval : Bool := false
  bpc_echointerval : Nat := 0
  bpc_createonly : Bool := false
  bpc_shutdown : Bool := false
  bpc_echo : Bool := false
  bpc_has_label : Bool := false
  bpc_label : String := ""
  bpc_track_sla : Bool := false
  deriving DecidableEq

/-- `struct peer_label`: label entries of `bglobal.bg_pllist`.  The
intrusive `pl_bs` back pointer is modelled by the owning session's local
discriminator. -/
structure PeerLabel where
  pl_label : String
  pl_bs : Nat
  deriving DecidableEq

/-- `pl_find`: linear scan of the label list. -/
def pl_find (pll : List PeerLabel) (label : String) : Option PeerLabel :=
  pll.find? (fun pl => decide (pl.pl_label = label))

/-- Echo paragraph of `_bfd_session_update`: set or clear the ECHO flag;
when set, (unconditionally) start echo transmission and arm the echo
receive timer, otherwise stop echo. -/
def sess_upd_echo (bs : BfdSession) (bpc : BfdPeerCfg) (r now : Nat) :
    BfdSession × List Event :=
  if bpc.bpc_echo then
    let b1 := { bs with flags := { bs.flags with echo := true } }
    let p2 := ptm_bfd_echo_start b1 r now
    (bfd_echo_recvtimer_update p2.1, p2.2)
  else
    let b1 := { bs with flags := { bs.flags with echo := false } }
    ptm_bfd_echo_stop b1 0

/-- Track-SLA paragraph of `_bfd_session_update`. -/
def sess_upd_track_sla (bs : BfdSession) (bpc : BfdPeerCfg) : BfdSession :=
  if bpc.bpc_track_sla then
    { bs with flags := { bs.flags with track_sla := true } }
  else
    { bs with flags := { bs.flags with track_sla := false } }

/-- Interval/multiplier paragraph of `_bfd_session_update`: each present
configuration value overwrites the session field (intervals are given in
milliseconds by the parser and stored in microseconds). -/
def sess_upd_intervals (bs : BfdSession) (bpc : BfdPeerCfg) : BfdSession :=
  let b1 := if bpc.bpc_has_txinterval then
      { bs with up_min_tx := bpc.bpc_txinterval * 1000 }
    else bs
  let b2 := if bpc.bpc_has_recvinterval then
      { b1 with timers := { b1.timers with
          required_min_rx := bpc.bpc_recvinterval * 1000 } }
    else b1
  let b3 := if bpc.bpc_has_detectmultiplier then
      { b2 with detect_mult := bpc.bpc_detectmultiplier }
    else b2
  if bpc.bpc_has_echointerval then
    { b3 with timers := { b3.timers with
        required_min_echo := bpc.bpc_echointerval * 1000 } }
  else b3

/-- Label paragraph of `_bfd_session_update`: install a new label when the
session has none and the label is free; otherwise rename, skipping when the
label is unchanged or already taken (failing softly in each case). -/
def sess_upd_label (bs : BfdSession) (bpc : BfdPeerCfg)
    (pll : List PeerLabel) : BfdSession × List PeerLabel :=
  if bpc.bpc_has_label then
    match bs.pl with
    | none =>
      match pl_find pll bpc.bpc_label with
      | some _ => (bs, pll)
      | none =>
        ({ bs with pl := some bpc.bpc_label },
         ⟨bpc.bpc_label, bs.discrs.my_discr⟩ :: pll)
    | some cur =>
      if bpc.bpc_label = cur then (bs, pll)
      else
        match pl_find pll bpc.bpc_label with
        | some _ => (bs, pll)
        | none =>
          ({ bs with pl := some bpc.bpc_label },
           pll.map (fun pl =>
             if pl.pl_label = cur ∧ pl.pl_bs = bs.discrs.my_discr then
               { pl with pl_label := bpc.bpc_label }
             else pl))
  else (bs, pll)

/-- Shutdown paragraph of `_bfd_session_update`: with the shutdown flag
set, record ADMIN_SHUTDOWN, cancel all four timers, enter AdminDown,
notify, transmit; with it unset, clear ADMIN_SHUTDOWN, enter Down, notify,
re-arm both detect timers and the transmit timer (plus the echo transmit
timer when echo is configured). -/
def sess_upd_shutdown (bs : BfdSession) (bpc : BfdPeerCfg) :
    BfdSession × List Event :=
  if bpc.bpc_shutdown then
    let b1 := { bs with flags := { bs.flags with shutdown := true } }
    let b2 := bfd_echo_xmttimer_delete (bfd_xmttimer_delete
      (bfd_echo_recvtimer_delete (bfd_recvtimer_delete b1)))
    let b3 := { b2 with ses_state := SesState.AdmDown }
    (b3, [Event.ev_notify, Event.ev_snd 0])
  else
    let b1 := { bs with flags := { bs.flags with shutdown := false } }
    let b2 := { b1 with ses_state := SesState.Down }
    let b3 := bfd_echo_recvtimer_update (bfd_recvtimer_update b2)
    let b4 := bfd_xmttimer_update b3 b3.xmt_TO
    let b5 := if b4.flags.echo then bfd_echo_xmttimer_update b4 b4.echo_xmt_TO
      else b4
    (b5, [Event.ev_notify])

/-- `_bfd_session_update`: the five paragraphs of the source function in
order — echo toggle, track-SLA toggle, interval/multiplier updates, label
handling, shutdown handling.  Returns the updated session, the updated
label list, and the emitted events. -/
def _bfd_session_update (bs : BfdSession) (bpc : BfdPeerCfg)
    (pll : List PeerLabel) (r now : Nat) :
    BfdSession × List PeerLabel × List Event :=
  let p1 := sess_upd_echo bs bpc r now
  let b2 := sess_upd_track_sla p1.1 bpc
  let b3 := sess_upd_intervals b2 bpc
  let p4 := sess_upd_label b3 bpc pll
  let p5 := sess_upd_shutdown p4.1 bpc
  (p5.1, p4.2, p1.2 ++ p5.2)

/-- `bfd_session_update`: refuse to touch an existing session when the
configuration is create-only, otherwise apply `_bfd_session_update` and
notify the configuration observers. -/
def bfd_session_update (bs : BfdSession) (bpc : BfdPeerCfg)
    (pll : List PeerLabel) (r now : Nat) :
    Option (BfdSession × List PeerLabel × List Event) :=
  if bpc.bpc_createonly then none
  else
    let u := _bfd_session_update bs bpc pll r now
    some (u.1, u.2.1, u.2.2 ++ [Event.ev_notify_config CONFIG_UPDATE])

/-! ## Session creation and deletion -/

/-- `bfd_session_new`: `calloc` a session, apply the header defaults
(`up_min_tx`, `required_min_rx`, `required_min_echo`, `detect_mult`),
assign the timer callbacks (pure registration — no timer armed), and store
the socket. -/
def bfd_session_new (sd : Nat) : BfdSession :=
  { discrs := ⟨0, 0⟩
    ses_state := SesState.AdmDown
    local_diag := 0
    polling := 0
    demand_mode := 0
    detect_mult := BFD_DEFDETECTMULT
    remote_detect_mult := 0
    up_min_tx := BFD_DEFDESIREDMINTX
    timers := ⟨0, BFD_DEFREQUIREDMINRX, BFD_DEF_REQ_MIN_ECHO⟩
    new_timers := ⟨0, 0, 0⟩
    xmt_TO := 0
    detect_TO := 0
    echo_xmt_TO := 0
    echo_detect_TO := 0
    flags := ⟨false, false, false, false, false, false, false⟩
    shop := ⟨⟨0, 0, 0⟩, ""⟩
    mhop := ⟨⟨0, 0, 0⟩, ⟨0, 0, 0⟩, ""⟩
    local_ip := ⟨0, 0, 0⟩
    pl := none
    sla := ⟨0, 0, 0, 0⟩
    stats := ⟨0, 0, 0, 0⟩
    refcount := 0
    sock := sd
    xmit_ms := 0
    xmttimer_armed := false
    xmttimer_interval := 0
    echo_xmttimer_armed := false
    echo_xmttimer_interval := 0
    recvtimer_armed := false
    echo_recvtimer_armed := false }

/-- Replace one session value by another in every index; this models an
in-place mutation through the intrusive uthash pointers. -/
def reg_replace (reg : Registry) (oldS newS : BfdSession) : Registry :=
  { session_hash := reg.session_hash.map (fun b => if b = oldS then newS else b)
    peer_hash := reg.peer_hash.map (fun b => if b = oldS then newS else b)
    local_peer_hash :=
      reg.local_peer_hash.map (fun b => if b = oldS then newS else b) }

/-- Result of `ptm_bfd_sess_new`: the created or updated session (`none`
models the `NULL` failure return), the updated registry, label list and
allocator counter, and the emitted events. -/
structure SessNewRes where
  result : Option BfdSession
  reg : Registry
  pll : List PeerLabel
  genSt : Nat
  events : List Event
  deriving DecidableEq

/-- `ptm_bfd_sess_new`: resolve an existing session by label or by address
key; an existing session means a configuration update (refused for
create-only).  Otherwise create: obtain a socket (the socket provider is an
external collaborator, assumed to succeed here), fill in the defaults,
choose the discriminator (caller-supplied when present, else the
allocator), initialise state Down with the slow-start detect timeout, arm
the receive timer, insert into the by-discriminator index and the
applicable address index (`HASH_ADD` does not check for duplicate keys),
apply `_bfd_session_update`, set the slow transmit interval and transmit.
The C code inserts the object pointer before the later field writes; with
value semantics the final session value is inserted. -/
def ptm_bfd_sess_new (bpc : BfdPeerCfg) (reg : Registry)
    (pll : List PeerLabel) (genSt r now : Nat) : SessNewRes :=
  let l_bfd : Option BfdSession :=
    if bpc.bpc_has_label ∧ (pl_find pll bpc.bpc_label).isSome then
      match pl_find pll bpc.bpc_label with
      | some pl => bs_session_find reg pl.pl_bs
      | none => none
    else if bpc.bpc_mhop then
      bfd_find_mhop reg
        { peer := bpc.bpc_peer, local_addr := bpc.bpc_local,
          vrf_name := if bpc.bpc_has_vrfname then bpc.bpc_vrfname else "" }
    else
      bfd_find_shop reg
        { peer := bpc.bpc_peer,
          port_name :=
            if ¬bpc.bpc_has_vxlan ∧ bpc.bpc_has_localif then bpc.bpc_localif
            else "" }
  match l_bfd with
  | some bs =>
    match bfd_session_update bs bpc pll r now with
    | some u => ⟨some u.1, reg_replace reg bs u.1, u.2.1, genSt, u.2.2⟩
    | none => ⟨none, reg, pll, genSt, []⟩
  | none =>
    let base := bfd_session_new 0
    let b1 := if bpc.bpc_has_vxlan then
        { base with flags := { base.flags with vxlan := true } }
      else base
    let b2 := if bpc.bpc_ipv4 = false then
        { b1 with flags := { b1.flags with ipv6 := true } }
      else b1
    let gid := ptm_bfd_gen_ID genSt
    let discr := if bpc.bpc_has_discr then bpc.bpc_discr else gid.1
    let genSt1 := if bpc.bpc_has_discr then genSt else gid.2
    let b3 := { b2 with
      discrs := { my_discr := discr, remote_discr := 0 },
      ses_state := SesState.Down,
      local_ip := bpc.bpc_local }
    let b4 := { b3 with
      timers := { b3.timers with desired_min_tx := b3.up_min_tx },
      detect_TO := b3.detect_mult * BFD_DEF_SLOWTX }
    let b5 := bfd_recvtimer_update b4
    let b6 := if bpc.bpc_mhop then
        { b5 with
          flags := { b5.flags with mh := true },
          mhop := { peer := bpc.bpc_peer, local_addr := bpc.bpc_local,
                    vrf_name :=
                      if bpc.bpc_has_vrfname then bpc.bpc_vrfname else "" } }
      else
        { b5 with
          shop := { peer := bpc.bpc_peer,
                    port_name :=
                      if ¬bpc.bpc_has_vxlan then bpc.bpc_localif else "" } }
    let u := _bfd_session_update b6 bpc pll r now
    let b7 := { u.1 with xmt_TO := BFD_DEF_SLOWTX }
    let p8 := ptm_bfd_xmt_TO b7 0 r now
    let final := p8.1
    let reg1 := { reg with session_hash := final :: reg.session_hash }
    let reg2 := if bpc.bpc_mhop then
        { reg1 with local_peer_hash := final :: reg1.local_peer_hash }
      else
        { reg1 with peer_hash := final :: reg1.peer_hash }
    ⟨some final, reg2, u.2.1, genSt1,
     u.2.2 ++ p8.2 ++ [Event.ev_notify_config CONFIG_ADD]⟩

/-! ## SLA telemetry -/

/-- `ptm_bfd_send_sla_update`: fold the elapsed round-trip sample (in
milliseconds, `uint32_t` difference of receive and last-transmit stamps)
into the running latency and jitter sums, then — whenever the received
packet total is a multiple of the detect multiplier — update the loss
snapshot (on `PKTS_TO_CONSIDER_FOR_PKT_LOSS` boundaries; the float
percentage itself is outside the embedding), divide the sums into the
report values, notify, and reset the accumulators. -/
def ptm_bfd_send_sla_update (bfd : BfdSession) (recv_ms : Nat) :
    BfdSession × List Event :=
  let time_elapsed : Nat :=
    (((recv_ms : Int) - (bfd.xmit_ms : Int)) % (2 ^ 32 : Int)).toNat
  let sla1 : BfdSla := { bfd.sla with lattency := bfd.sla.lattency + time_elapsed }
  let sla2 : BfdSla := if sla1.old_lat ≠ 0 then
      { sla1 with jitter :=
          sla1.jitter + ((sla1.old_lat : Int) - (time_elapsed : Int)).natAbs }
    else sla1
  let sla3 := { sla2 with old_lat := time_elapsed }
  let total_pkts := bfd.stats.rx_ctrl_pkt + bfd.stats.rx_echo_pkt
  if total_pkts % bfd.detect_mult = 0 then
    let sla4 := if total_pkts % PKTS_TO_CONSIDER_FOR_PKT_LOSS < bfd.detect_mult
      then
        let total_pkts_lost : Nat :=
          ((((bfd.stats.tx_ctrl_pkt + bfd.stats.tx_echo_pkt) : Int) -
            ((bfd.stats.rx_ctrl_pkt + bfd.stats.rx_echo_pkt) : Int)) %
            (2 ^ 32 : Int)).toNat
        { sla3 with pkts_lost := total_pkts_lost }
      else sla3
    let sla5 := { sla4 with
      lattency := sla4.lattency / bfd.detect_mult,
      jitter := sla4.jitter / (bfd.detect_mult - 1) }
    ({ bfd with sla := { sla5 with lattency := 0, jitter := 0, old_lat := 0 } },
     [Event.ev_notify_sla sla5.lattency sla5.jitter])
  else
    ({ bfd with sla := sla3 }, [])

/-- Modelled from the spec: the packet-receive path (`bfd_packet.c`, not
under `src/`) counts every received control packet in `rx_ctrl_pkt` and,
with TRACK_SLA set, folds the sample via `ptm_bfd_send_sla_update` (§4.E:
"Every received control or echo packet computes `elapsed` …"). -/
def recv_ctrl_pkt_sla (bfd : BfdSession) (recv_ms : Nat) :
    BfdSession × List Event :=
  let b := { bfd with stats :=
    { bfd.stats with rx_ctrl_pkt := bfd.stats.rx_ctrl_pkt + 1 } }
  ptm_bfd_send_sla_update b recv_ms

/-! ## Concrete fixtures -/

/-- A single-hop session with discriminator 5 and peer 198.51.100.2
(0xC6336402), port already zeroed as stored keys are. -/
def c1_sess : BfdSession :=
  { bfd_session_new 0 with
    discrs := ⟨5, 0⟩,
    ses_state := SesState.Down,
    shop := ⟨⟨AF_INET, 0xC6336402, 0⟩, ""⟩ }

/-- Registry holding only `c1_sess` (by-discriminator and single-hop
indices). -/
def c1_reg : Registry := ⟨[c1_sess], [c1_sess], []⟩

/-- Source address of a received packet: a *different* peer (1.2.3.4) with
an ephemeral source port. -/
def c1_sa : SockAddr := ⟨AF_INET, 0x01020304, 49152⟩

/-- Received control packet carrying your-discriminator 5. -/
def c1_pkt : BfdPkt := ⟨0x99, 5, SesState.Up⟩

/-- A session in state Up (for the configuration-update claims). -/
def c2_sess : BfdSession := { bfd_session_new 0 with ses_state := SesState.Up }

/-- A configuration update changing only the detect multiplier; every
other field keeps the parser's zeroed default (shutdown unset, echo unset,
not create-only). -/
def c2_cfg : BfdPeerCfg :=
  { bpc_has_detectmultiplier := true, bpc_detectmultiplier := 5 }

/-- Create request A: peer 10.0.0.1, explicit discriminator 0x12345678. -/
def c3_cfgA : BfdPeerCfg :=
  { bpc_peer := ⟨AF_INET, 0x0A000001, 0⟩,
    bpc_has_discr := true, bpc_discr := 0x12345678 }

/-- Create request B: distinct peer 10.0.0.2, same explicit
discriminator. -/
def c3_cfgB : BfdPeerCfg :=
  { bpc_peer := ⟨AF_INET, 0x0A000002, 0⟩,
    bpc_has_discr := true, bpc_discr := 0x12345678 }

/-- Result of the first create, starting from an empty registry. -/
def c3_resA : SessNewRes := ptm_bfd_sess_new c3_cfgA Registry.empty [] 1 0 0

/-- Result of the second create, on the registry left by the first. -/
def c3_resB : SessNewRes :=
  ptm_bfd_sess_new c3_cfgB c3_resA.reg c3_resA.pll c3_resA.genSt 0 0

/-- A session with detect multiplier 3 and nominal transmit interval
1 000 000 µs (scenario S5). -/
def c5_sess : BfdSession :=
  { bfd_session_new 0 with detect_mult := 3, xmt_TO := 1000000 }

/-- The same session with detect multiplier 1. -/
def c5_sess1 : BfdSession := { c5_sess with detect_mult := 1 }

/-- A session in state Init (detection timeout before ever reaching Up). -/
def c6_sess : BfdSession :=
  { bfd_session_new 0 with ses_state := SesState.Init }

/-- An AdminDown session with the ADMIN_SHUTDOWN flag set, as left by a
shutdown update. -/
def c7_sess : BfdSession :=
  { bfd_session_new 0 with
    ses_state := SesState.AdmDown,
    flags := { (bfd_session_new 0).flags with shutdown := true } }

/-- A configuration update with the shutdown flag set. -/
def c7_cfg_dn : BfdPeerCfg := { bpc_shutdown := true }

/-- A configuration update with the shutdown flag unset. -/
def c7_cfg_up : BfdPeerCfg := { bpc_shutdown := false }

/-- A *multi-hop* session in state Down. -/
def c8_sess : BfdSession :=
  { bfd_session_new 0 with
    ses_state := SesState.Down,
    flags := { (bfd_session_new 0).flags with mh := true } }

/-- A configuration update enabling echo-mode (shutdown unset). -/
def c8_cfg : BfdPeerCfg := { bpc_echo := true }

/-- A session with TRACK_SLA set, detect multiplier 3, zeroed counters and
accumulators, last transmit stamp at 0 ms. -/
def c9_sess : BfdSession :=
  { bfd_session_new 0 with
    flags := { (bfd_session_new 0).flags with track_sla := true } }

/-- First received packet, 10 ms after transmit. -/
def c9_s1 : BfdSession × List Event := recv_ctrl_pkt_sla c9_sess 10

/-- Second received packet, sample 20 ms. -/
def c9_s2 : BfdSession × List Event := recv_ctrl_pkt_sla c9_s1.1 20

/-- Third received packet, sample 30 ms. -/
def c9_s3 : BfdSession × List Event := recv_ctrl_pkt_sla c9_s2.1 30

/-- A session in state Init for the notification claim. -/
def c10_sess : BfdSession :=
  { bfd_session_new 0 with ses_state := SesState.Init }

/-! ## Helper lemmas -/

/-- `ptm_bfd_echo_stop` without polling touches only the echo fields and
timers: protocol state, discriminators, polling and diagnostic are
preserved and no event is emitted. -/
theorem echo_stop_quiet (bfd : BfdSession) :
    (ptm_bfd_echo_stop bfd 0).1.ses_state = bfd.ses_state ∧
    (ptm_bfd_echo_stop bfd 0).1.discrs = bfd.discrs ∧
    (ptm_bfd_echo_stop bfd 0).1.polling = bfd.polling ∧
    (ptm_bfd_echo_stop bfd 0).1.local_diag = bfd.local_diag ∧
    (ptm_bfd_echo_stop bfd 0).2 = [] := by
  simp [ptm_bfd_echo_stop, bfd_echo_recvtimer_delete, bfd_echo_xmttimer_delete]

/-- Field values of a session after `ptm_bfd_ses_dn`. -/
theorem ses_dn_fields (bfd : BfdSession) (diag : Nat) :
    (ptm_bfd_ses_dn bfd diag).1.ses_state = SesState.Down ∧
    (ptm_bfd_ses_dn bfd diag).1.discrs.remote_discr = 0 ∧
    (ptm_bfd_ses_dn bfd diag).1.polling = 0 ∧
    (ptm_bfd_ses_dn bfd diag).1.local_diag = diag := by
  simp only [ptm_bfd_ses_dn]
  split
  · simp [ptm_bfd_echo_stop, bfd_echo_recvtimer_delete,
      bfd_echo_xmttimer_delete]
  · simp

/-- Events emitted by `ptm_bfd_ses_dn`: one control transmission, plus an
observer notification exactly when the previous state was Up. -/
theorem ses_dn_events (bfd : BfdSession) (diag : Nat) :
    (ptm_bfd_ses_dn bfd diag).2 =
      [Event.ev_snd 0] ++
        (if bfd.ses_state = SesState.Up then [Event.ev_notify] else []) := by
  simp only [ptm_bfd_ses_dn]
  split <;> split <;>
    simp [ptm_bfd_echo_stop, bfd_echo_recvtimer_delete,
      bfd_echo_xmttimer_delete]

/-- Behaviour of the shutdown paragraph of `_bfd_session_update`, for an
arbitrary intermediate session value. -/
theorem sess_upd_shutdown_spec (bs : BfdSession) (bpc : BfdPeerCfg) :
    (sess_upd_shutdown bs bpc).1.ses_state =
      (if bpc.bpc_shutdown then SesState.AdmDown else SesState.Down) ∧
    (sess_upd_shutdown bs bpc).1.flags.shutdown = bpc.bpc_shutdown ∧
    (bpc.bpc_shutdown = true →
      (sess_upd_shutdown bs bpc).1.xmttimer_armed = false ∧
      (sess_upd_shutdown bs bpc).1.recvtimer_armed = false ∧
      (sess_upd_shutdown bs bpc).1.echo_xmttimer_armed = false ∧
      (sess_upd_shutdown bs bpc).1.echo_recvtimer_armed = false) ∧
    (bpc.bpc_shutdown = false →
      (sess_upd_shutdown bs bpc).1.xmttimer_armed = true ∧
      (sess_upd_shutdown bs bpc).1.recvtimer_armed = true ∧
      (sess_upd_shutdown bs bpc).1.echo_recvtimer_armed = true) := by
  cases h : bpc.bpc_shutdown <;>
    simp only [sess_upd_shutdown, h, if_true, if_false, Bool.false_eq_true,
      Bool.true_eq_false, bfd_xmttimer_delete, bfd_echo_xmttimer_delete,
      bfd_recvtimer_delete, bfd_echo_recvtimer_delete, bfd_xmttimer_update,
      bfd_echo_xmttimer_update, bfd_recvtimer_update,
      bfd_echo_recvtimer_update] <;>
    first
    | (split <;> simp)
    | simp

/-- Counter value after `n` allocator calls: `(1 + n) mod 2^32`. -/
theorem genID_state_eq (n : Nat) :
    genID_state n = (sessionID_init + n) % 2 ^ 32 := by
  induction n with
  | zero => simp [genID_state, sessionID_init]
  | succ n ih =>
    rw [genID_state, ptm_bfd_gen_ID, ih]
    conv_rhs => rw [show sessionID_init + (n + 1) = sessionID_init + n + 1 by
      omega]
    rw [Nat.add_mod (sessionID_init + n) 1]
    norm_num

/-- The `n`-th allocator call (`n ≥ 1`) returns `n mod 2^32`. -/
theorem genID_nth_eq (n : Nat) (h : 1 ≤ n) : genID_nth n = n % 2 ^ 32 := by
  unfold genID_nth ptm_bfd_gen_ID
  rw [genID_state_eq]
  unfold sessionID_init
  omega

/-! ## Claim theorems -/

/-- Claim C1, evaluated at the failing input: a received packet with
your-discriminator 5 arriving from peer 1.2.3.4 — an address different
from the session's stored peer 198.51.100.2 — still resolves to the
session.  `bfd_find_disc` never rejects on a peer-address mismatch: its
guard requires `my_discr ≠ ldisc`, which is false for every
`HASH_FIND` hit, so the address comparison is dead code and the claim's
"no session is returned when the address does not match" fails. -/
theorem bfd_find_disc_returns_on_mismatched_peer :
    ptm_bfd_sess_find c1_reg (fun _ => none) (some c1_pkt) "" c1_sa
        ⟨0, 0, 0⟩ "" false = some c1_sess ∧
    sa_strip_port c1_sa ≠ c1_sess.shop.peer := by
  constructor
  · decide
  · decide

/-- Claim C4 counterexample: the 2^32-th allocator call returns 0, while
the claimed formula `((n−1) mod (2^32−1)) + 1` gives 1 there and the claim
says 0 is never returned. -/
theorem gen_ID_wraps_to_zero :
    genID_nth (2 ^ 32) = 0 ∧
    ((2 ^ 32 - 1) % (2 ^ 32 - 1) + 1 : Nat) = 1 ∧
    genID_nth (2 ^ 32) ≠ (2 ^ 32 - 1) % (2 ^ 32 - 1) + 1 := by
  have h : genID_nth (2 ^ 32) = 0 := by
    rw [genID_nth_eq (2 ^ 32) (by norm_num)]
    simp
  refine ⟨h, by norm_num, ?_⟩
  rw [h]
  norm_num

/-- Claim C4 as amended: the `n`-th call of `ptm_bfd_gen_ID` returns
`n mod 2^32` — strictly increasing from 1, wrapping to 0 (not 1) after
2^32−1 calls — and no value repeats within the first 2^32−1
allocations. -/
theorem gen_ID_nth_formula (n : Nat) (h : 1 ≤ n) :
    genID_nth n = n % 2 ^ 32 ∧
    ∀ m, 1 ≤ m → m < n → n ≤ 2 ^ 32 - 1 → genID_nth m ≠ genID_nth n := by
  refine ⟨genID_nth_eq n h, ?_⟩
  intro m hm hmn hn
  rw [genID_nth_eq m hm, genID_nth_eq n h]
  have h1 : m % 2 ^ 32 = m := Nat.mod_eq_of_lt (by omega)
  have h2 : n % 2 ^ 32 = n := Nat.mod_eq_of_lt (by omega)
  omega

/-- Witness for `gen_ID_nth_formula` at `n = 2`, `m = 1`. -/
theorem gen_ID_nth_formula_witness :
    (1 ≤ 2) ∧ genID_nth 2 = 2 % 2 ^ 32 ∧ genID_nth 1 ≠ genID_nth 2 :=
  ⟨by norm_num, (gen_ID_nth_formula 2 (by norm_num)).1,
   (gen_ID_nth_formula 2 (by norm_num)).2 1 (by norm_num) (by norm_num)
     (by norm_num)⟩

/-- Claim C6: every entry to Down through `ptm_bfd_ses_dn` zeroes the
remote discriminator, clears polling and records the supplied diagnostic;
in particular a detection timeout (`bfd_recvtimer_cb`) on a session in Up
or Init drives it Down with diagnostic DetectTime. -/
theorem ses_dn_clears_remote_discr_polling_diag :
    (∀ (bfd : BfdSession) (diag : Nat),
      (ptm_bfd_ses_dn bfd diag).1.ses_state = SesState.Down ∧
      (ptm_bfd_ses_dn bfd diag).1.discrs.remote_discr = 0 ∧
      (ptm_bfd_ses_dn bfd diag).1.polling = 0 ∧
      (ptm_bfd_ses_dn bfd diag).1.local_diag = diag) ∧
    (∀ bs : BfdSession,
      bs.ses_state = SesState.Up ∨ bs.ses_state = SesState.Init →
      (bfd_recvtimer_cb bs).1.ses_state = SesState.Down ∧
      (bfd_recvtimer_cb bs).1.discrs.remote_discr = 0 ∧
      (bfd_recvtimer_cb bs).1.polling = 0 ∧
      (bfd_recvtimer_cb bs).1.local_diag = BFD_DIAGDETECTTIME) := by
  refine ⟨ses_dn_fields, ?_⟩
  intro bs hbs
  have h1 : bs.ses_state = SesState.Init ∨ bs.ses_state = SesState.Up := by
    tauto
  have hf := ses_dn_fields bs BFD_DIAGDETECTTIME
  unfold bfd_recvtimer_cb
  rw [if_pos h1]
  simpa [bfd_recvtimer_update] using hf

/-- Witness for `ses_dn_clears_remote_discr_polling_diag` at a concrete
Init session. -/
theorem ses_dn_clears_remote_discr_polling_diag_witness :
    (c6_sess.ses_state = SesState.Up ∨ c6_sess.ses_state = SesState.Init) ∧
    ((bfd_recvtimer_cb c6_sess).1.ses_state = SesState.Down ∧
     (bfd_recvtimer_cb c6_sess).1.discrs.remote_discr = 0 ∧
     (bfd_recvtimer_cb c6_sess).1.polling = 0 ∧
     (bfd_recvtimer_cb c6_sess).1.local_diag = BFD_DIAGDETECTTIME) :=
  ⟨Or.inr (by decide),
   ses_dn_clears_remote_discr_polling_diag.2 c6_sess (Or.inr (by decide))⟩

/-- Claim C10: `ptm_bfd_ses_dn` notifies observers exactly when the
previous state was Up, while always transmitting a control packet; a
detection timeout in Init therefore changes state to Down and transmits
without emitting any notification. -/
theorem ses_dn_notify_only_from_up :
    (∀ (bfd : BfdSession) (diag : Nat),
      (Event.ev_notify ∈ (ptm_bfd_ses_dn bfd diag).2 ↔
        bfd.ses_state = SesState.Up) ∧
      Event.ev_snd 0 ∈ (ptm_bfd_ses_dn bfd diag).2) ∧
    (∀ bs : BfdSession, bs.ses_state = SesState.Init →
      (bfd_recvtimer_cb bs).1.ses_state = SesState.Down ∧
      Event.ev_snd 0 ∈ (bfd_recvtimer_cb bs).2 ∧
      Event.ev_notify ∉ (bfd_recvtimer_cb bs).2) := by
  constructor
  · intro bfd diag
    rw [ses_dn_events]
    constructor
    · by_cases h : bfd.ses_state = SesState.Up <;> simp [h]
    · simp
  · intro bs hbs
    have h1 : bs.ses_state = SesState.Init ∨ bs.ses_state = SesState.Up :=
      Or.inl hbs
    unfold bfd_recvtimer_cb
    rw [if_pos h1]
    refine ⟨?_, ?_, ?_⟩
    · simpa [bfd_recvtimer_update] using
        (ses_dn_fields bs BFD_DIAGDETECTTIME).1
    · simp [ses_dn_events]
    · simp [ses_dn_events, hbs]

/-- Witness for `ses_dn_notify_only_from_up` at a concrete Init session. -/
theorem ses_dn_notify_only_from_up_witness :
    c10_sess.ses_state = SesState.Init ∧
    ((bfd_recvtimer_cb c10_sess).1.ses_state = SesState.Down ∧
     Event.ev_snd 0 ∈ (bfd_recvtimer_cb c10_sess).2 ∧
     Event.ev_notify ∉ (bfd_recvtimer_cb c10_sess).2) :=
  ⟨by decide, ses_dn_notify_only_from_up.2 c10_sess (by decide)⟩

/-- Claim C2 counterexample: a session in state Up, given a configuration
update that changes only the detect multiplier (shutdown unset, not
create-only), does not stay Up — its protocol state is reset to Down. -/
theorem session_update_forces_down_counterexample :
    c2_sess.ses_state = SesState.Up ∧
    Option.map (fun u => u.1.ses_state)
      (bfd_session_update c2_sess c2_cfg [] 0 0) = some SesState.Down ∧
    some SesState.Down ≠ some c2_sess.ses_state := by
  exact ⟨by decide, by decide, by decide⟩

/-- Claim C2 as amended: every accepted configuration update with the
shutdown flag unset resets the session's protocol state to Down — a
teardown to Down occurs even when only non-teardown parameters change and
the session was Up. -/
theorem session_update_shutdown_unset_forces_down (bs : BfdSession)
    (bpc : BfdPeerCfg) (pll : List PeerLabel) (r now : Nat)
    (h1 : bpc.bpc_createonly = false) (h2 : bpc.bpc_shutdown = false) :
    Option.map (fun u => u.1.ses_state) (bfd_session_update bs bpc pll r now)
      = some SesState.Down := by
  simp only [bfd_session_update, h1, Bool.false_eq_true, if_false,
    _bfd_session_update, Option.map_some']
  rw [(sess_upd_shutdown_spec _ bpc).1, h2]
  simp

/-- Witness for `session_update_shutdown_unset_forces_down` at the
concrete Up session and detect-multiplier-only update. -/
theorem session_update_shutdown_unset_forces_down_witness :
    c2_cfg.bpc_createonly = false ∧ c2_cfg.bpc_shutdown = false ∧
    Option.map (fun u => u.1.ses_state)
      (bfd_session_update c2_sess c2_cfg [] 0 0) = some SesState.Down :=
  ⟨by decide, by decide,
   session_update_shutdown_unset_forces_down c2_sess c2_cfg [] 0 0
     (by decide) (by decide)⟩

/-- Claim C3, evaluated at the failing input: two create requests carrying
the same explicit discriminator 0x12345678 but distinct peers both
succeed, and the by-discriminator index ends up holding two sessions under
that discriminator — `HASH_ADD` in `ptm_bfd_sess_new` performs no
collision check, so no registry conflict is reported. -/
theorem sess_new_duplicate_discriminator_accepted :
    c3_resA.result.isSome = true ∧
    c3_resB.result.isSome = true ∧
    (c3_resB.reg.session_hash.filter
      (fun b => decide (b.discrs.my_discr = 0x12345678))).length = 2 ∧
    c3_resB.reg.session_hash.map (fun b => b.shop.peer.addr) =
      [0x0A000002, 0x0A000001] := by
  exact ⟨by decide, by decide, by decide, by decide⟩

/-- Claim C7: after `_bfd_session_update` the session is in AdminDown
exactly when ADMIN_SHUTDOWN is set; a shutdown update forces AdminDown,
sets the flag and cancels all four timers; an un-shutdown update clears
the flag, moves the session to Down and re-arms the transmit and both
detect timers. -/
theorem session_update_admin_shutdown_iff (bs : BfdSession)
    (bpc : BfdPeerCfg) (pll : List PeerLabel) (r now : Nat) :
    ((_bfd_session_update bs bpc pll r now).1.ses_state = SesState.AdmDown ↔
      (_bfd_session_update bs bpc pll r now).1.flags.shutdown = true) ∧
    (bpc.bpc_shutdown = true →
      (_bfd_session_update bs bpc pll r now).1.ses_state = SesState.AdmDown ∧
      (_bfd_session_update bs bpc pll r now).1.flags.shutdown = true ∧
      (_bfd_session_update bs bpc pll r now).1.xmttimer_armed = false ∧
      (_bfd_session_update bs bpc pll r now).1.recvtimer_armed = false ∧
      (_bfd_session_update bs bpc pll r now).1.echo_xmttimer_armed = false ∧
      (_bfd_session_update bs bpc pll r now).1.echo_recvtimer_armed = false) ∧
    (bpc.bpc_shutdown = false →
      (_bfd_session_update bs bpc pll r now).1.flags.shutdown = false ∧
      (_bfd_session_update bs bpc pll r now).1.ses_state = SesState.Down ∧
      (_bfd_session_update bs bpc pll r now).1.xmttimer_armed = true ∧
      (_bfd_session_update bs bpc pll r now).1.recvtimer_armed = true ∧
      (_bfd_session_update bs bpc pll r now).1.echo_recvtimer_armed = true) := by
  unfold _bfd_session_update
  obtain ⟨hstate, hflag, hdn, hup⟩ := sess_upd_shutdown_spec
    (sess_upd_label (sess_upd_intervals (sess_upd_track_sla
      (sess_upd_echo bs bpc r now).1 bpc) bpc) bpc pll).1 bpc
  cases hb : bpc.bpc_shutdown
  · rw [hb] at hstate hflag
    simp only [if_false, Bool.false_eq_true] at hstate
    obtain ⟨hu1, hu2, hu3⟩ := hup hb
    refine ⟨?_, ?_, ?_⟩
    · rw [hstate, hflag]
      simp
    · intro hcontra
      simp at hcontra
    · intro _
      exact ⟨hflag, hstate, hu1, hu2, hu3⟩
  · rw [hb] at hstate hflag
    simp only [if_true] at hstate
    obtain ⟨hd1, hd2, hd3, hd4⟩ := hdn hb
    refine ⟨?_, ?_, ?_⟩
    · rw [hstate, hflag]
      simp
    · intro _
      exact ⟨hstate, hflag, hd1, hd2, hd3, hd4⟩
    · intro hcontra
      simp at hcontra

/-- Witness for `session_update_admin_shutdown_iff` at a concrete session
and a shutdown update. -/
theorem session_update_admin_shutdown_iff_witness :
    c7_cfg_dn.bpc_shutdown = true ∧
    ((_bfd_session_update c7_sess c7_cfg_dn [] 0 0).1.ses_state =
        SesState.AdmDown ∧
     (_bfd_session_update c7_sess c7_cfg_dn [] 0 0).1.flags.shutdown = true ∧
     (_bfd_session_update c7_sess c7_cfg_dn [] 0 0).1.xmttimer_armed = false ∧
     (_bfd_session_update c7_sess c7_cfg_dn [] 0 0).1.recvtimer_armed = false ∧
     (_bfd_session_update c7_sess c7_cfg_dn [] 0 0).1.echo_xmttimer_armed
        = false ∧
     (_bfd_session_update c7_sess c7_cfg_dn [] 0 0).1.echo_recvtimer_armed
        = false) :=
  ⟨by decide,
   (session_update_admin_shutdown_iff c7_sess c7_cfg_dn [] 0 0).2.1
     (by decide)⟩

/-- Claim C8, evaluated at the failing input: a configuration update that
enables echo-mode on a session that is Down and multi-hop still invokes
`ptm_bfd_echo_start` — an echo packet is transmitted and the echo
transmit timer armed — contradicting "echo starts only when Up,
single-hop, with non-zero remote min-echo". -/
theorem session_update_echo_started_when_down_mhop :
    c8_sess.ses_state = SesState.Down ∧
    c8_sess.flags.mh = true ∧
    Event.ev_echo_snd ∈ (_bfd_session_update c8_sess c8_cfg [] 0 0).2.2 ∧
    (_bfd_session_update c8_sess c8_cfg [] 0 0).1.echo_xmttimer_armed
      = true := by
  exact ⟨by decide, by decide, by decide, by decide⟩

/-- Claim C5: the armed transmit interval equals
`T × (75 + r mod m) / 100` (integer arithmetic, as in the source), where
`m = 16` when the local detect multiplier is 1 and `m = 26` otherwise; the
interval hence lies between `⌊0.75·T⌋` and `⌊0.90·T⌋` (multiplier 1) resp.
`T` (otherwise).  The hypothesis keeps the 64-bit multiplication from
wrapping, which holds for every 32-bit timer value. -/
theorem start_xmt_timer_jitter_bounds (bfd : BfdSession) (is_echo : Bool)
    (r : Nat)
    (h : nominal_xmt_interval bfd is_echo * 100 < 2 ^ 64) :
    armed_xmt_interval bfd is_echo r =
      nominal_xmt_interval bfd is_echo *
        (75 + r % (if bfd.detect_mult = 1 then 16 else 26)) / 100 ∧
    nominal_xmt_interval bfd is_echo * 75 / 100 ≤
      armed_xmt_interval bfd is_echo r ∧
    armed_xmt_interval bfd is_echo r ≤
      (if bfd.detect_mult = 1 then
        nominal_xmt_interval bfd is_echo * 90 / 100
      else nominal_xmt_interval bfd is_echo) := by
  have hj : 75 + r % (if bfd.detect_mult = 1 then 16 else 26) ≤ 100 := by
    by_cases hd : bfd.detect_mult = 1 <;> simp only [hd, if_true, if_false]
    · have := Nat.mod_lt r (show 0 < 16 by norm_num)
      omega
    · have := Nat.mod_lt r (show 0 < 26 by norm_num)
      omega
  have hlt : nominal_xmt_interval bfd is_echo *
      (75 + r % (if bfd.detect_mult = 1 then 16 else 26)) < 2 ^ 64 :=
    lt_of_le_of_lt (Nat.mul_le_mul_left _ hj) h
  have harmed : armed_xmt_interval bfd is_echo r =
      nominal_xmt_interval bfd is_echo *
        (75 + r % (if bfd.detect_mult = 1 then 16 else 26)) / 100 := by
    unfold nominal_xmt_interval at hlt ⊢
    unfold armed_xmt_interval ptm_bfd_start_xmt_timer
    cases is_echo <;>
      simp only [if_true, if_false, Bool.false_eq_true,
        bfd_xmttimer_update, bfd_echo_xmttimer_update] at hlt ⊢ <;>
      rw [Nat.mod_eq_of_lt hlt]
  refine ⟨harmed, ?_, ?_⟩
  · rw [harmed]
    exact Nat.div_le_div_right (Nat.mul_le_mul_left _ (by omega))
  · rw [harmed]
    by_cases hd : bfd.detect_mult = 1 <;> simp only [hd, if_true, if_false]
    · refine Nat.div_le_div_right (Nat.mul_le_mul_left _ ?_)
      have := Nat.mod_lt r (show 0 < 16 by norm_num)
      omega
    · calc nominal_xmt_interval bfd is_echo *
            (75 + r % 26) / 100
          ≤ nominal_xmt_interval bfd is_echo * 100 / 100 :=
            Nat.div_le_div_right (Nat.mul_le_mul_left _ (by
              have := Nat.mod_lt r (show 0 < 26 by norm_num)
              omega))
        _ = nominal_xmt_interval bfd is_echo :=
            Nat.mul_div_cancel _ (by norm_num)

/-- Witness for `start_xmt_timer_jitter_bounds` at detect multiplier 3,
nominal interval 1 000 000 µs, draw 7. -/
theorem start_xmt_timer_jitter_bounds_witness :
    nominal_xmt_interval c5_sess false * 100 < 2 ^ 64 ∧
    (armed_xmt_interval c5_sess false 7 =
      nominal_xmt_interval c5_sess false *
        (75 + 7 % (if c5_sess.detect_mult = 1 then 16 else 26)) / 100 ∧
    nominal_xmt_interval c5_sess false * 75 / 100 ≤
      armed_xmt_interval c5_sess false 7 ∧
    armed_xmt_interval c5_sess false 7 ≤
      (if c5_sess.detect_mult = 1 then
        nominal_xmt_interval c5_sess false * 90 / 100
      else nominal_xmt_interval c5_sess false)) :=
  ⟨by decide, start_xmt_timer_jitter_bounds c5_sess false 7 (by decide)⟩

/-- Claim C9: with TRACK_SLA and detect multiplier 3, three received
packets with samples 10, 20, 30 ms produce exactly one report with latency
20 and jitter 10, after which the accumulators are reset; in general
`ptm_bfd_send_sla_update` emits a report exactly when
`(rx_ctrl + rx_echo) mod detect_mult = 0`. -/
theorem sla_rollup_report :
    (c9_s1.2 = [] ∧ c9_s2.2 = [] ∧
     c9_s3.2 = [Event.ev_notify_sla 20 10] ∧
     c9_s3.1.sla.lattency = 0 ∧ c9_s3.1.sla.jitter = 0 ∧
     c9_s3.1.sla.old_lat = 0) ∧
    ∀ (bfd : BfdSession) (recv_ms : Nat),
      ((ptm_bfd_send_sla_update bfd recv_ms).2 ≠ [] ↔
        (bfd.stats.rx_ctrl_pkt + bfd.stats.rx_echo_pkt) % bfd.detect_mult
          = 0) := by
  constructor
  · exact ⟨by decide, by decide, by decide, by decide, by decide, by decide⟩
  · intro bfd recv_ms
    by_cases hc :
        (bfd.stats.rx_ctrl_pkt + bfd.stats.rx_echo_pkt) % bfd.detect_mult
          = 0 <;>
      simp [ptm_bfd_send_sla_update, hc]

end Bfd
